/-
Verification of the RestoInsight core (src/model/emotion_detector.py) against
its natural-language specification.

The Python classes are shallowly embedded as Lean definitions:
  * floats are modelled as exact rationals (ℚ); the decimal literals of the
    source (0.40, 0.45, 0.55, 0.12, the emotion weights) are exact decimals;
  * Python dicts that preserve insertion order are modelled as association
    lists; `defaultdict` maps are modelled as total functions with the
    default value at every unwritten key;
  * the uuid and timestamp fields of records are elided (they carry no
    information used by any property below); a closure timestamp is modelled
    by a Boolean flag recording whether it was stamped;
  * the external black boxes (face embedding extraction, embedding distance,
    the frame-to-histogram signature and the histogram dissimilarity) are
    parameters of the definitions that use them, as the spec declares them
    out of scope.
-/
import Mathlib

namespace RestoInsight

set_option maxRecDepth 8192

/-! ## Configuration constants (CONFIG, emotion_detector.py lines 53-83) -/

/-- 0.50, written as `mkRat` so that it evaluates inside the kernel; the
bridging lemmas below the definitions prove each constant equal to its
decimal literal from the source. -/
def STAFF_MATCH_THRESHOLD : ℚ := mkRat 50 100

/-- 0.45 -/
def PERSON_TRACKING_THRESHOLD : ℚ := mkRat 45 100

/-- 0.40 -/
def SCENE_CHANGE_THRESHOLD : ℚ := mkRat 40 100

/-- 0.55 -/
def ANOMALY_CONFIDENCE : ℚ := mkRat 55 100

/-- CONFIG EMOTION_WEIGHTS plus the `weights.get(e, 0.5)` default used at
every lookup site in the source. -/
def weight (e : String) : ℚ :=
  if e = "happy" then 1.0
  else if e = "surprise" then 0.65
  else if e = "neutral" then 0.5
  else if e = "sad" then 0.2
  else if e = "fear" then 0.15
  else if e = "disgust" then 0.1
  else if e = "angry" then 0.0
  else 0.5

/-! ## Sentiment (DataStore._calc_sentiment, lines 325-353) -/

/-- One step of the `counts[e] += 1` loop over an insertion-ordered
association list (`defaultdict(int)` keeps first-seen key order). -/
def bumpCount (cs : List (String × Nat)) (e : String) : List (String × Nat) :=
  if cs.any (fun kv => kv.1 = e) then
    cs.map (fun kv => if kv.1 = e then (kv.1, kv.2 + 1) else kv)
  else cs ++ [(e, 1)]

def buildCounts (emotions : List String) : List (String × Nat) :=
  emotions.foldl bumpCount []

/-- `max(counts, key=counts.get)`: Python max keeps the first maximal
element in iteration order; a later element replaces the current best only
when its count is strictly greater. -/
def maxByCount (cs : List (String × Nat)) : String :=
  match cs with
  | [] => ""
  | c :: rest => (rest.foldl (fun best kv => if best.2 < kv.2 then kv else best) c).1

/-- Result record of `_calc_sentiment`.  The empty-input branch of the
source returns a dict WITHOUT the `counts` key, so that component is an
`Option`, with `none` meaning the key is absent. -/
structure Sentiment where
  avg_happiness : Int
  dominant : String
  trend : String
  counts : Option (List (String × Nat))
deriving DecidableEq

/-- DataStore._calc_sentiment.  `int(x)` on the nonnegative quantity
`sum/len*100` is truncation toward zero, i.e. the floor. -/
def calcSentiment (emotions : List String) : Sentiment :=
  if emotions = [] then
    { avg_happiness := 0, dominant := "neutral", trend := "stable", counts := none }
  else
    let counts := buildCounts emotions
    let dominant := maxByCount counts
    let avg_happiness : Int :=
      ⌊(emotions.map weight).sum / (emotions.length : ℚ) * 100⌋
    let trend :=
      if 4 ≤ emotions.length then
        let mid := emotions.length / 2
        let first := ((emotions.take mid).map weight).sum / (mid : ℚ)
        let second :=
          ((emotions.drop mid).map weight).sum / ((emotions.length - mid : ℕ) : ℚ)
        let diff := second - first
        if (0.12 : ℚ) < diff then "improving"
        else if diff < -(0.12 : ℚ) then "deteriorating"
        else "stable"
      else "stable"
    { avg_happiness := avg_happiness, dominant := dominant,
      trend := trend, counts := some counts }

/-- Spec-side definition, from the words of claim C4: the mean per-emotion
weight of a sequence. -/
def meanWeight (emotions : List String) : ℚ :=
  (emotions.map weight).sum / (emotions.length : ℚ)

/-- Spec-side definition, from the words of claim C7: split at the
floor-division midpoint, the second half including the midpoint index,
compare mean weights of the halves against the 0.12 band. -/
def trendSpec (emotions : List String) : String :=
  if emotions.length < 4 then "stable"
  else
    let mid := emotions.length / 2
    let firstHalf := emotions.take mid
    let secondHalf := emotions.drop mid
    let firstMean := (firstHalf.map weight).sum / (firstHalf.length : ℚ)
    let secondMean := (secondHalf.map weight).sum / (secondHalf.length : ℚ)
    if (0.12 : ℚ) < secondMean - firstMean then "improving"
    else if secondMean - firstMean < -(0.12 : ℚ) then "deteriorating"
    else "stable"

/-! ## Data store (class DataStore, lines 239-478) -/

/-- Person type.  The source passes the strings 'staff' and 'guest'; the
spec mandates a closed enumeration, and only these two values ever occur. -/
inductive PType where
  | staff
  | guest
deriving DecidableEq

/-- Per-table tracking entry, the `defaultdict` default being the record
with all four collections empty (lines 249-254).  `guests` and `staff` are
Python sets; they are modelled as first-insertion-ordered duplicate-free
lists. -/
structure TableData where
  guests : List String
  staff : List String
  guest_emotions : List String
  staff_emotions : List String
deriving DecidableEq

def TableData.empty : TableData :=
  { guests := [], staff := [], guest_emotions := [], staff_emotions := [] }

/-- One element of `DataStore.staff_emotions[name]` (lines 291-295). -/
structure StaffEmo where
  emotion : String
  confidence : ℚ
  table : Nat
deriving DecidableEq

/-- Alert record (DataStore.add_alert, lines 304-316); uuid and creation
timestamp elided. -/
structure Alert where
  table_number : Nat
  alert_type : String
  severity : String
  title : String
  description : String
  is_resolved : Bool
deriving DecidableEq

/-- Per-table metadata record (DataStore.init_table lines 259-266 and
finalize_table lines 318-323).  `end_time` is `true` once the closure
timestamp has been stamped; the frozen `guests`/`staff` lists exist only
after finalize, hence the `Option`. -/
structure TableRec where
  table_number : String
  end_time : Bool
  guests : Option (List String)
  staff : Option (List String)
deriving DecidableEq

/-- The state of a DataStore.  The `snapshots` ledger is elided: no claim
below refers to it and its entries are write-only uuid/timestamp records. -/
structure DataStore where
  tables : List (Nat × TableRec)
  alerts : List Alert
  total_guests : Nat
  tableData : Nat → TableData
  staffEmotions : String → List StaffEmo

def initDataStore : DataStore :=
  { tables := [], alerts := [], total_guests := 0,
    tableData := fun _ => TableData.empty, staffEmotions := fun _ => [] }

/-- Python `f"{n:02d}"` for a nonnegative table number. -/
def format02 (n : Nat) : String :=
  if n < 10 then "0" ++ Nat.repr n else Nat.repr n

/-- DataStore.init_table (lines 259-266). -/
def initTable (ds : DataStore) (tableNum : Nat) : DataStore :=
  if ds.tables.any (fun kv => kv.1 = tableNum) then ds
  else
    { ds with tables := ds.tables ++
        [(tableNum, { table_number := format02 tableNum, end_time := false,
                      guests := none, staff := none })] }

/-- Point update of the per-table `defaultdict`. -/
def updateTD (f : Nat → TableData) (t : Nat) (v : TableData) : Nat → TableData :=
  fun n => if n = t then v else f n

/-- DataStore.add_detection (lines 268-302), minus the elided snapshot
append.  Returns the updated store. -/
def addDetection (ds : DataStore) (tableNum : Nat) (personId : String)
    (ptype : PType) (personName : String) (emotion : String)
    (confidence : ℚ) : DataStore :=
  let ds1 := initTable ds tableNum
  let td := ds1.tableData tableNum
  match ptype with
  | PType.staff =>
    let td1 := { td with
      staff := if personName ∈ td.staff then td.staff else td.staff ++ [personName],
      staff_emotions := td.staff_emotions ++ [emotion] }
    { ds1 with
      tableData := updateTD ds1.tableData tableNum td1,
      staffEmotions := fun n =>
        if n = personName then
          ds1.staffEmotions n ++
            [{ emotion := emotion, confidence := confidence, table := tableNum }]
        else ds1.staffEmotions n }
  | PType.guest =>
    let seen := personId ∈ td.guests
    let td1 := { td with
      guests := if seen then td.guests else td.guests ++ [personId],
      guest_emotions := td.guest_emotions ++ [emotion] }
    { ds1 with
      tableData := updateTD ds1.tableData tableNum td1,
      total_guests := if seen then ds1.total_guests else ds1.total_guests + 1 }

/-- DataStore.finalize_table (lines 318-323): a silent no-op when the
table id was never opened. -/
def stampClosed (r : TableRec) (td : TableData) : TableRec :=
  { r with end_time := true, guests := some td.guests, staff := some td.staff }

def finalizeTable (ds : DataStore) (tableNum : Nat) : DataStore :=
  if ds.tables.any (fun kv => kv.1 = tableNum) then
    { ds with tables := ds.tables.map (fun kv =>
        if kv.1 = tableNum then (kv.1, stampClosed kv.2 (ds.tableData tableNum))
        else kv) }
  else ds

/-! ## Anomaly detector (class AnomalyDetector, lines 484-538) -/

structure AnomalyDetector where
  tableAnger : Nat → PType → Nat
  alerted : List String

def initAnomaly : AnomalyDetector :=
  { tableAnger := fun _ _ => 0, alerted := [] }

/-- The dedup keys of the three rules, Python
`f"{table_num}_dispute_staff"` and friends. -/
def keyStaffDispute (t : Nat) : String := Nat.repr t ++ "_dispute_staff"

def keyGuestDispute (t : Nat) : String := Nat.repr t ++ "_dispute_guest"

def keyService (t : Nat) : String := Nat.repr t ++ "_service"

def disputeStaffAlert (t : Nat) : Alert :=
  { table_number := t, alert_type := "dispute_staff_customer", severity := "urgent",
    title := "Table " ++ format02 t ++ ": Staff-Customer Dispute",
    description := "Both staff and customer showing anger. Immediate intervention needed.",
    is_resolved := false }

def guestDisputeAlert (t : Nat) : Alert :=
  { table_number := t, alert_type := "dispute_customers", severity := "urgent",
    title := "Table " ++ format02 t ++ ": Guest Dispute",
    description := "Multiple angry guests detected. Possible dispute among guests.",
    is_resolved := false }

def serviceAlert (t : Nat) : Alert :=
  { table_number := t, alert_type := "service_dissatisfaction", severity := "warning",
    title := "Table " ++ format02 t ++ ": Service Issue",
    description := "Negative emotions from both guest and staff. Check service quality.",
    is_resolved := false }

/-- `self.table_anger[table_num][person_type] += 1` (line 496). -/
def bumpAnger (ad : AnomalyDetector) (t : Nat) (p : PType) : AnomalyDetector :=
  { ad with tableAnger := fun t0 p0 =>
      if t0 = t ∧ p0 = p then ad.tableAnger t0 p0 + 1 else ad.tableAnger t0 p0 }

/-- Rules 1 and 2 of AnomalyDetector.check (lines 500-521): an if/elif
chain, so rule 2 is evaluated only when the whole rule-1 condition is
false.  Each firing records the dedup key and appends the alert to the
store (DataStore.add_alert). -/
def rule12 (ad : AnomalyDetector) (ds : DataStore) (tableNum : Nat) :
    AnomalyDetector × DataStore × Option Alert :=
  if 1 ≤ ad.tableAnger tableNum PType.guest ∧
      1 ≤ ad.tableAnger tableNum PType.staff ∧
      keyStaffDispute tableNum ∉ ad.alerted then
    ({ ad with alerted := keyStaffDispute tableNum :: ad.alerted },
     { ds with alerts := ds.alerts ++ [disputeStaffAlert tableNum] },
     some (disputeStaffAlert tableNum))
  else if 2 ≤ ad.tableAnger tableNum PType.guest ∧
      keyGuestDispute tableNum ∉ ad.alerted then
    ({ ad with alerted := keyGuestDispute tableNum :: ad.alerted },
     { ds with alerts := ds.alerts ++ [guestDisputeAlert tableNum] },
     some (guestDisputeAlert tableNum))
  else (ad, ds, none)

/-- Rule 3 of AnomalyDetector.check (lines 523-536): an independent `if`
over the stored per-table emotion histories; when it fires it OVERWRITES
the `alert` local returned by rules 1/2. -/
def rule3 (s : AnomalyDetector × DataStore × Option Alert) (tableNum : Nat) :
    AnomalyDetector × DataStore × Option Alert :=
  let td := s.2.1.tableData tableNum
  let guestNeg :=
    (td.guest_emotions.filter (fun e => e = "angry" ∨ e = "sad" ∨ e = "neutral")).length
  let staffNeg :=
    (td.staff_emotions.filter (fun e => e = "angry" ∨ e = "sad")).length
  if 2 ≤ guestNeg ∧ 1 ≤ staffNeg ∧ keyService tableNum ∉ s.1.alerted then
    ({ s.1 with alerted := keyService tableNum :: s.1.alerted },
     { s.2.1 with alerts := s.2.1.alerts ++ [serviceAlert tableNum] },
     some (serviceAlert tableNum))
  else s

/-- AnomalyDetector.check (lines 492-538): bump the anger counter on a
qualifying observation, then evaluate rules 1/2 and rule 3 in order. -/
def anomalyCheck (ad : AnomalyDetector) (ds : DataStore) (tableNum : Nat)
    (ptype : PType) (emotion : String) (confidence : ℚ) :
    AnomalyDetector × DataStore × Option Alert :=
  let ad1 :=
    if emotion = "angry" ∧ ANOMALY_CONFIDENCE < confidence then
      bumpAnger ad tableNum ptype
    else ad
  rule3 (rule12 ad1 ds tableNum) tableNum

/-- One accepted detection event, as fed by the pipeline
(EmotionDetector.process_frame lines 650-672): the event is recorded in
the DataStore and then AnomalyDetector.check runs on it. -/
structure Event where
  table : Nat
  person_id : String
  ptype : PType
  name : String
  emotion : String
  confidence : ℚ

def processDetection (ad : AnomalyDetector) (ds : DataStore) (ev : Event) :
    AnomalyDetector × DataStore × Option Alert :=
  let ds1 := addDetection ds ev.table ev.person_id ev.ptype ev.name ev.emotion ev.confidence
  anomalyCheck ad ds1 ev.table ev.ptype ev.emotion ev.confidence

/-- One session step: the detector/store state after one event. -/
def sessionStep (s : AnomalyDetector × DataStore) (ev : Event) :
    AnomalyDetector × DataStore :=
  let out := processDetection s.1 s.2 ev
  (out.1, out.2.1)

/-- A session: the fold of `processDetection` over the accepted events,
starting from the fresh engine and store. -/
def runSession (evs : List Event) : AnomalyDetector × DataStore :=
  evs.foldl sessionStep (initAnomaly, initDataStore)

/-- The dedup key recorded for an alert of a given table and type: the
inverse reading of the three `self.alerted` key formats. -/
def keyOf (t : Nat) (ty : String) : String :=
  if ty = "dispute_staff_customer" then keyStaffDispute t
  else if ty = "dispute_customers" then keyGuestDispute t
  else if ty = "service_dissatisfaction" then keyService t
  else ""

/-- Invariant: every alert on the ledger has its dedup key recorded in
the engine's `alerted` set. -/
def dedupInv (alerted : List String) (alerts : List Alert) : Prop :=
  ∀ a ∈ alerts, keyOf a.table_number a.alert_type ∈ alerted

/-- At most one alert per (table id, alert type) pair. -/
def atMostOne (alerts : List Alert) : Prop :=
  ∀ (t : Nat) (ty : String),
    List.countP (fun a => decide (a.table_number = t ∧ a.alert_type = ty)) alerts ≤ 1

/-! ## Person tracker (class PersonTracker, lines 148-201)

The embedding vector type and the distance function
(`face_recognition.face_distance`) are external black boxes and appear as
parameters. -/

structure Person (Emb : Type) where
  ptype : PType
  name : String
  encoding : Option Emb

/-- `self.persons` is an insertion-ordered dict, modelled as an
association list; `guest_counter` as in the source. -/
structure PersonTracker (Emb : Type) where
  persons : List (String × Person Emb)
  guest_counter : Nat

def initTracker {Emb : Type} : PersonTracker Emb :=
  { persons := [], guest_counter := 0 }

/-- The guest-matching loop of get_or_create (lines 169-180): scan the
persons dict in insertion order, skipping non-guests and guests without a
stored encoding, and stop at the FIRST guest whose stored encoding is
within the tracking threshold. -/
def findGuestMatch {Emb : Type} (dist : Emb → Emb → ℚ) (e : Emb) :
    List (String × Person Emb) → Option (String × Person Emb)
  | [] => none
  | kv :: rest =>
    match kv.2.encoding with
    | some enc =>
      if kv.2.ptype = PType.guest ∧ dist enc e < PERSON_TRACKING_THRESHOLD then
        some kv
      else findGuestMatch dist e rest
    | none => findGuestMatch dist e rest

/-- `self.persons[pid]['encoding'] = encoding` for a matched guest. -/
def updateEncoding {Emb : Type} (ps : List (String × Person Emb))
    (pid : String) (e : Emb) : List (String × Person Emb) :=
  ps.map (fun kv =>
    if kv.1 = pid then (kv.1, { kv.2 with encoding := some e }) else kv)

/-- The new-guest tail of get_or_create (lines 182-191). -/
def newGuest {Emb : Type} (pt : PersonTracker Emb) (encoding : Option Emb) :
    PersonTracker Emb × String × PType × String :=
  let c := pt.guest_counter + 1
  let pid := "guest_" ++ Nat.repr c
  let name := "Guest " ++ Nat.repr c
  ({ persons := pt.persons ++
      [(pid, { ptype := PType.guest, name := name, encoding := encoding })],
     guest_counter := c },
   pid, PType.guest, name)

/-- PersonTracker.get_or_create (lines 155-191).  The staff branch is
guarded by Python truthiness of both `is_staff` and `staff_name` (an empty
or absent name falls through to guest handling). -/
def getOrCreate {Emb : Type} (dist : Emb → Emb → ℚ) (pt : PersonTracker Emb)
    (encoding : Option Emb) (isStaff : Bool) (staffName : Option String) :
    PersonTracker Emb × String × PType × String :=
  match staffName with
  | some n =>
    if isStaff ∧ n ≠ "" then
      let pid := "staff_" ++ n
      let pt1 :=
        if pt.persons.any (fun kv => kv.1 = pid) then pt
        else { pt with persons := pt.persons ++
            [(pid, { ptype := PType.staff, name := n, encoding := encoding })] }
      (pt1, pid, PType.staff, n)
    else
      match encoding with
      | some e =>
        match findGuestMatch dist e pt.persons with
        | some kv =>
          ({ pt with persons := updateEncoding pt.persons kv.1 e },
           kv.1, PType.guest, kv.2.name)
        | none => newGuest pt encoding
      | none => newGuest pt none
  | none =>
    match encoding with
    | some e =>
      match findGuestMatch dist e pt.persons with
      | some kv =>
        ({ pt with persons := updateEncoding pt.persons kv.1 e },
         kv.1, PType.guest, kv.2.name)
      | none => newGuest pt encoding
    | none => newGuest pt none

/-- PersonTracker.reset_guests (lines 193-196). -/
def resetGuests {Emb : Type} (pt : PersonTracker Emb) : PersonTracker Emb :=
  { persons := pt.persons.filter (fun kv => kv.2.ptype = PType.staff),
    guest_counter := 0 }

/-! ## Scene detector (class SceneDetector, lines 207-233)

The histogram extracted from a frame and the Bhattacharyya dissimilarity
are external (cv2); frames are represented by their signatures and the
dissimilarity is a parameter. -/

structure SceneDetector (Sig : Type) where
  prev_hist : Option Sig
  current_table : Nat
  table_start : Nat
  table_frames : List (Nat × Nat)

def initScene {Sig : Type} : SceneDetector Sig :=
  { prev_hist := none, current_table := 1, table_start := 0, table_frames := [] }

/-- SceneDetector.check (lines 216-233): compare with the previous
signature, and on a change record the finished table duration, advance the
table id and report the change. -/
def sceneCheck {Sig : Type} (d : Sig → Sig → ℚ) (s : SceneDetector Sig)
    (hist : Sig) (frameNum : Nat) : SceneDetector Sig × Bool × Nat :=
  match s.prev_hist with
  | none => ({ s with prev_hist := some hist }, false, s.current_table)
  | some prev =>
    if SCENE_CHANGE_THRESHOLD < d prev hist then
      ({ prev_hist := some hist,
         current_table := s.current_table + 1,
         table_start := frameNum,
         table_frames := s.table_frames ++
           [(s.current_table, frameNum - s.table_start)] },
       true, s.current_table + 1)
    else ({ s with prev_hist := some hist }, false, s.current_table)

/-- The sequence of (changed, tableId) outputs over a run of frames. -/
def sceneRun {Sig : Type} (d : Sig → Sig → ℚ) (s : SceneDetector Sig) :
    List (Sig × Nat) → List (Bool × Nat)
  | [] => []
  | f :: rest =>
    let out := sceneCheck d s f.1 f.2
    (out.2.1, out.2.2) :: sceneRun d out.1 rest

/-! ## Staff performance (DataStore.calc_staff_performance, lines 355-419) -/

/-- `set(e['table'] for e in emotions)`: the distinct tables served. -/
def dedupTables (ns : List Nat) : List Nat :=
  ns.foldl (fun acc n => if n ∈ acc then acc else acc ++ [n]) []

/-- Python `round(x, 1)` (round half to even on the tie), as a rational
with one decimal place. -/
def pyRound1 (q : ℚ) : ℚ :=
  let x := q * 10
  let f := ⌊x⌋
  let r := x - f
  let n : ℤ :=
    if r < 1/2 then f
    else if 1/2 < r then f + 1
    else if f % 2 = 0 then f else f + 1
  (n : ℚ) / 10

/-- The clamped score of the per-staff loop body (lines 360-384): base
mean weight ×100, +5 per resolved table, clamped to 100. -/
def staffScoreRaw (emotions : List StaffEmo) (tableData : Nat → TableData) : ℚ :=
  let score := (emotions.map (fun e => weight e.emotion * 100)).sum /
    (emotions.length : ℚ)
  let tablesServed := dedupTables (emotions.map (fun e => e.table))
  let resolved := (tablesServed.filter (fun tnum =>
      let guestNeg := ((tableData tnum).guest_emotions.filter
        (fun e => e = "angry" ∨ e = "sad" ∨ e = "disgust")).length
      let staffPos := ((emotions.filter (fun e => e.table = tnum)).filter
        (fun e => e.emotion = "happy" ∨ e.emotion = "neutral")).length
      0 < guestNeg ∧ guestNeg < staffPos)).length
  min 100 (score + (resolved : ℚ) * 5)

/-- One StaffPerformanceRecord (lines 387-412), before ranking. -/
structure PerfRecord where
  name : String
  score : ℚ
  badge : String
  category : String
  dominant_emotion : String
  tables_served : Nat
  resolved_negative_trends : Nat
  detection_count : Nat

/-- The per-staff loop body of calc_staff_performance, producing the
record appended for one staff member with a nonempty history. -/
def staffPerfRecord (name : String) (emotions : List StaffEmo)
    (tableData : Nat → TableData) : PerfRecord :=
  let score := staffScoreRaw emotions tableData
  let badge := if 75 ≤ score then "High Empathy"
    else if 55 ≤ score then "Consistent" else "Needs Support"
  let category := if 75 ≤ score then "top_performer"
    else if 55 ≤ score then "most_praised" else "needs_support"
  let tablesServed := dedupTables (emotions.map (fun e => e.table))
  let resolved := (tablesServed.filter (fun tnum =>
      let guestNeg := ((tableData tnum).guest_emotions.filter
        (fun e => e = "angry" ∨ e = "sad" ∨ e = "disgust")).length
      let staffPos := ((emotions.filter (fun e => e.table = tnum)).filter
        (fun e => e.emotion = "happy" ∨ e.emotion = "neutral")).length
      0 < guestNeg ∧ guestNeg < staffPos)).length
  { name := name,
    score := pyRound1 score,
    badge := badge,
    category := category,
    dominant_emotion := maxByCount (buildCounts (emotions.map (fun e => e.emotion))),
    tables_served := tablesServed.length,
    resolved_negative_trends := resolved,
    detection_count := emotions.length }

/-! ## Concrete traces used by counterexamples and witnesses -/

/-- Table 1, a first guest observed angry at confidence 0.9. -/
def ev1 : Event :=
  { table := 1, person_id := "guest_1", ptype := PType.guest,
    name := "Guest 1", emotion := "angry", confidence := mkRat 9 10 }

/-- Table 1, a second guest observed neutral at confidence 0.9. -/
def ev2 : Event :=
  { table := 1, person_id := "guest_2", ptype := PType.guest,
    name := "Guest 2", emotion := "neutral", confidence := mkRat 9 10 }

/-- Table 1, a staff member observed angry at confidence 0.9. -/
def ev3 : Event :=
  { table := 1, person_id := "staff_Alex", ptype := PType.staff,
    name := "Alex", emotion := "angry", confidence := mkRat 9 10 }

/-- Engine and store state after the first two events of the trace. -/
def sessionPrefix : AnomalyDetector × DataStore := runSession [ev1, ev2]

/-- The store after the third detection is recorded, just before
AnomalyDetector.check runs on it. -/
def storeBefore3 : DataStore :=
  addDetection sessionPrefix.2 1 "staff_Alex" PType.staff "Alex" "angry" (mkRat 9 10)

/-- A signature-dissimilarity instance for scene-detector witnesses:
distinct signatures are maximally dissimilar. -/
def sigDiff : Nat → Nat → ℚ := fun x y => if x = y then 0 else 1

/-- A staff history spanning 21 tables with two happy observations each:
base score 100 and 21 resolved-trend bonuses. -/
def emoW : List StaffEmo :=
  ((List.range 21).map (fun i =>
    [{ emotion := "happy", confidence := 0.9, table := i + 1 },
     { emotion := "happy", confidence := 0.9, table := i + 1 }])).flatten

/-- Per-table guest emotions for the 21 tables: one angry guest moment
each, so every table served counts as resolved. -/
def tdW : Nat → TableData := fun t =>
  if 1 ≤ t ∧ t ≤ 21 then
    { guests := [], staff := [], guest_emotions := ["angry"], staff_emotions := [] }
  else TableData.empty

/-- A pre-reset tracker holding one staff person and one guest whose
stored embedding is 7. -/
def ptW : PersonTracker Nat :=
  { persons :=
      [("staff_Bo", { ptype := PType.staff, name := "Bo", encoding := some 5 }),
       ("guest_1", { ptype := PType.guest, name := "Guest 1", encoding := some 7 })],
    guest_counter := 1 }

/-! # Theorems -/

/-- The configuration constants equal the decimal literals of the source. -/
theorem config_constants_exact :
    STAFF_MATCH_THRESHOLD = 0.50 ∧ PERSON_TRACKING_THRESHOLD = 0.45 ∧
      SCENE_CHANGE_THRESHOLD = 0.40 ∧ ANOMALY_CONFIDENCE = 0.55 := by
  refine ⟨?_, ?_, ?_, ?_⟩ <;> norm_num [STAFF_MATCH_THRESHOLD,
    PERSON_TRACKING_THRESHOLD, SCENE_CHANGE_THRESHOLD, ANOMALY_CONFIDENCE]

/-- Claim C4 counterexample: on the sequence [happy, surprise, surprise]
the mean weight is 2.3/3, so 100 times it is 76.66...; the code truncates
to 76 while the nearest integer is 77, so avgHappiness is NOT the
round-to-integer of 100 times the mean weight. -/
theorem c4_round_counterexample :
    (calcSentiment ["happy", "surprise", "surprise"]).avg_happiness ≠
      round (100 * meanWeight ["happy", "surprise", "surprise"]) := by
  have h1 : (calcSentiment ["happy", "surprise", "surprise"]).avg_happiness = 76 := by
    norm_num [calcSentiment, weight, Int.floor_eq_iff,
      (by decide : (["happy", "surprise", "surprise"] : List String) ≠ []),
      (by decide : ("surprise" : String) ≠ "happy")]
  have h2 : round (100 * meanWeight ["happy", "surprise", "surprise"]) = 77 := by
    norm_num [meanWeight, weight, round_eq, Int.floor_eq_iff,
      (by decide : ("surprise" : String) ≠ "happy")]
  rw [h1, h2]
  decide

/-- Claim C4 (amended): for every non-empty sequence of emotion labels,
avgHappiness equals the FLOOR (truncation toward zero of a nonnegative
value) of 100 times the mean per-emotion weight, not the nearest
integer. -/
theorem c4_avg_happiness_floor (es : List String) (h : es ≠ []) :
    (calcSentiment es).avg_happiness = ⌊100 * meanWeight es⌋ := by
  simp only [calcSentiment, if_neg h, meanWeight]
  congr 1
  ring

/-- Witness for c4_avg_happiness_floor at the input [happy]. -/
theorem c4_avg_happiness_floor_witness :
    ["happy"] ≠ ([] : List String) ∧
      (calcSentiment ["happy"]).avg_happiness = ⌊100 * meanWeight ["happy"]⌋ :=
  ⟨by decide, c4_avg_happiness_floor ["happy"] (by decide)⟩

/-- Claim C5: calling finalize on table id 99, which was never opened in
the fresh store, leaves the store COMPLETELY unchanged — a silent no-op,
not an explicit error.  This contradicts the claim (and spec section 7),
which demands a surfaced programming-contract violation. -/
theorem c5_finalize_unopened_noop :
    finalizeTable initDataStore 99 = initDataStore := rfl

/-- Claim C6 counterexample: on the empty sequence the source returns the
dict of only three keys, so the perEmotionCounts component is absent
(modelled as `none`), refuting the claim that all four components are
present for every input. -/
theorem c6_empty_counts_counterexample :
    (calcSentiment []).counts = none := rfl

/-- Claim C6 (amended): for every NON-EMPTY input the sentiment record
carries all four components (perEmotionCounts present); for the empty
sequence the result is avgHappiness=0, dominant neutral, trend stable,
with the perEmotionCounts component absent. -/
theorem c6_sentiment_components (es : List String) :
    (es ≠ [] → (calcSentiment es).counts ≠ none) ∧
      calcSentiment [] =
        { avg_happiness := 0, dominant := "neutral", trend := "stable",
          counts := none } := by
  refine ⟨fun h => ?_, rfl⟩
  simp [calcSentiment, if_neg h]

/-- Witness for c6_sentiment_components at the input [happy]. -/
theorem c6_sentiment_components_witness :
    (calcSentiment ["happy"]).counts ≠ none ∧
      calcSentiment [] =
        { avg_happiness := 0, dominant := "neutral", trend := "stable",
          counts := none } :=
  ⟨(c6_sentiment_components ["happy"]).1 (by decide),
   (c6_sentiment_components []).2⟩

/-- Claim C7: for every sequence of emotion labels, the trend computed by
the code equals the spec trend: split at the floor-division midpoint with
the second half including the midpoint index, compare the half means
against the 0.12 band; and any sequence shorter than 4 yields stable. -/
theorem c7_trend_spec (es : List String) :
    (calcSentiment es).trend = trendSpec es := by
  rcases Nat.lt_or_ge es.length 4 with h | h
  · have h4 : ¬ 4 ≤ es.length := by omega
    by_cases h0 : es = []
    · subst h0; rfl
    · simp only [calcSentiment, trendSpec, if_neg h0, if_pos h, if_neg h4]
  · have h0 : es ≠ [] := by
      intro h'
      rw [h'] at h
      simp at h
    have hlt : ¬ es.length < 4 := by omega
    simp only [calcSentiment, trendSpec, if_neg h0, if_neg hlt, if_pos h]
    have hmid : es.length / 2 ≤ es.length := Nat.div_le_self _ _
    simp [List.length_take, List.length_drop, Nat.min_eq_left hmid]

/-- The dedup key map agrees with the key recorded by rule 1. -/
theorem keyOf_staffDispute (t : Nat) :
    keyOf t "dispute_staff_customer" = keyStaffDispute t := rfl

/-- The dedup key map agrees with the key recorded by rule 2. -/
theorem keyOf_guestDispute (t : Nat) :
    keyOf t "dispute_customers" = keyGuestDispute t := rfl

/-- The dedup key map agrees with the key recorded by rule 3. -/
theorem keyOf_service (t : Nat) :
    keyOf t "service_dissatisfaction" = keyService t := rfl

/-- Appending one alert whose dedup key was not yet recorded preserves
both halves of the dedup invariant. -/
theorem invStep (al : List String) (as : List Alert) (k : String) (a : Alert)
    (h1 : dedupInv al as) (h2 : atMostOne as)
    (hk : keyOf a.table_number a.alert_type = k) (hnot : k ∉ al) :
    dedupInv (k :: al) (as ++ [a]) ∧ atMostOne (as ++ [a]) := by
  constructor
  · intro b hb
    rcases List.mem_append.mp hb with hb | hb
    · exact List.mem_cons_of_mem _ (h1 b hb)
    · have hba : b = a := by simpa using hb
      subst hba
      rw [hk]
      exact List.mem_cons_self _ _
  · intro t ty
    rw [List.countP_append]
    by_cases hpa : a.table_number = t ∧ a.alert_type = ty
    · have hzero :
          List.countP (fun b => decide (b.table_number = t ∧ b.alert_type = ty)) as = 0 := by
        rw [List.countP_eq_zero]
        intro b hb
        simp only [decide_eq_true_eq, not_and]
        intro hbt hbty
        have hkey : keyOf b.table_number b.alert_type = k := by
          rw [hbt, hbty, ← hpa.1, ← hpa.2]
          exact hk
        exact absurd (hkey ▸ h1 b hb) hnot
      have hone :
          List.countP (fun b => decide (b.table_number = t ∧ b.alert_type = ty)) [a] = 1 := by
        simp [List.countP_cons, hpa]
      omega
    · have hzero :
          List.countP (fun b => decide (b.table_number = t ∧ b.alert_type = ty)) [a] = 0 := by
        simp [List.countP_cons, hpa]
      have := h2 t ty
      omega

/-- Rules 1/2 preserve the dedup invariant. -/
theorem rule12_inv (ad : AnomalyDetector) (ds : DataStore) (t : Nat)
    (h1 : dedupInv ad.alerted ds.alerts) (h2 : atMostOne ds.alerts) :
    dedupInv (rule12 ad ds t).1.alerted (rule12 ad ds t).2.1.alerts ∧
      atMostOne (rule12 ad ds t).2.1.alerts := by
  unfold rule12
  split_ifs with hA hB
  · exact invStep _ _ _ _ h1 h2 (keyOf_staffDispute t) hA.2.2
  · exact invStep _ _ _ _ h1 h2 (keyOf_guestDispute t) hB.2
  · exact ⟨h1, h2⟩

/-- Rule 3 preserves the dedup invariant. -/
theorem rule3_inv (s : AnomalyDetector × DataStore × Option Alert) (t : Nat)
    (h1 : dedupInv s.1.alerted s.2.1.alerts) (h2 : atMostOne s.2.1.alerts) :
    dedupInv (rule3 s t).1.alerted (rule3 s t).2.1.alerts ∧
      atMostOne (rule3 s t).2.1.alerts := by
  simp only [rule3]
  split_ifs with hC
  · exact invStep _ _ _ _ h1 h2 (keyOf_service t) hC.2.2
  · exact ⟨h1, h2⟩

/-- A whole check call preserves the dedup invariant. -/
theorem anomalyCheck_inv (ad : AnomalyDetector) (ds : DataStore) (t : Nat)
    (p : PType) (e : String) (c : ℚ)
    (h1 : dedupInv ad.alerted ds.alerts) (h2 : atMostOne ds.alerts) :
    dedupInv (anomalyCheck ad ds t p e c).1.alerted
        (anomalyCheck ad ds t p e c).2.1.alerts ∧
      atMostOne (anomalyCheck ad ds t p e c).2.1.alerts := by
  have had1 :
      (if e = "angry" ∧ ANOMALY_CONFIDENCE < c then bumpAnger ad t p else ad).alerted =
        ad.alerted := by
    split_ifs <;> rfl
  have h12 := rule12_inv (if e = "angry" ∧ ANOMALY_CONFIDENCE < c then bumpAnger ad t p else ad)
    ds t (by rw [had1]; exact h1) h2
  simpa only [anomalyCheck] using rule3_inv _ t h12.1 h12.2

/-- Recording a detection does not touch the alert ledger. -/
theorem addDetection_alerts (ds : DataStore) (tableNum : Nat) (personId : String)
    (ptype : PType) (personName : String) (emotion : String) (confidence : ℚ) :
    (addDetection ds tableNum personId ptype personName emotion confidence).alerts =
      ds.alerts := by
  unfold addDetection initTable
  cases ptype <;> split_ifs <;> rfl

/-- One session step preserves the dedup invariant. -/
theorem sessionStep_inv (s : AnomalyDetector × DataStore) (ev : Event)
    (h1 : dedupInv s.1.alerted s.2.alerts) (h2 : atMostOne s.2.alerts) :
    dedupInv (sessionStep s ev).1.alerted (sessionStep s ev).2.alerts ∧
      atMostOne (sessionStep s ev).2.alerts := by
  have hds1 := addDetection_alerts s.2 ev.table ev.person_id ev.ptype ev.name
    ev.emotion ev.confidence
  exact anomalyCheck_inv s.1 _ ev.table ev.ptype ev.emotion ev.confidence
    (by rw [hds1]; exact h1) (by rw [hds1]; exact h2)

/-- The invariant holds after folding any event sequence from any state
satisfying it. -/
theorem foldl_inv (evs : List Event) :
    ∀ s : AnomalyDetector × DataStore,
      dedupInv s.1.alerted s.2.alerts → atMostOne s.2.alerts →
      dedupInv (evs.foldl sessionStep s).1.alerted (evs.foldl sessionStep s).2.alerts ∧
        atMostOne (evs.foldl sessionStep s).2.alerts := by
  induction evs with
  | nil => exact fun s h1 h2 => ⟨h1, h2⟩
  | cons ev rest ih =>
    intro s h1 h2
    rw [List.foldl_cons]
    have hstep := sessionStep_inv s ev h1 h2
    exact ih (sessionStep s ev) hstep.1 hstep.2

/-- Claim C1: over every session (every sequence of accepted detection
events driving AnomalyDetector.check), the final alert ledger contains at
most one alert per (table id, alert type) pair: once a dedup key has
fired, no further alert with that table and type is appended. -/
theorem c1_alert_dedup (evs : List Event) (t : Nat) (ty : String) :
    List.countP (fun a => decide (a.table_number = t ∧ a.alert_type = ty))
      (runSession evs).2.alerts ≤ 1 := by
  have hinit1 : dedupInv initAnomaly.alerted initDataStore.alerts := by
    intro a ha
    exact absurd ha (List.not_mem_nil a)
  have hinit2 : atMostOne initDataStore.alerts := by
    intro t0 ty0
    simp [initDataStore]
  exact ((foldl_inv evs (initAnomaly, initDataStore) hinit1 hinit2).2) t ty

/-- Witness for c1_alert_dedup on the concrete three-event trace, whose
run fires both a dispute and a service alert on table 1. -/
theorem c1_alert_dedup_witness :
    List.countP
      (fun a => decide (a.table_number = 1 ∧ a.alert_type = "service_dissatisfaction"))
      (runSession [ev1, ev2, ev3]).2.alerts ≤ 1 :=
  c1_alert_dedup [ev1, ev2, ev3] 1 "service_dissatisfaction"

/-- Claim C2 counterexample: on the concrete trace guest-angry,
guest-neutral, staff-angry at table 1, the third check call newly fires
BOTH rule 1 and rule 3, yet the returned alert is the rule-3 service
alert, not the rule-1 dispute alert the claim demands. -/
theorem c2_first_match_counterexample :
    sessionPrefix.2.alerts = [] ∧
      (processDetection sessionPrefix.1 sessionPrefix.2 ev3).2.1.alerts =
        [disputeStaffAlert 1, serviceAlert 1] ∧
      (processDetection sessionPrefix.1 sessionPrefix.2 ev3).2.2 ≠
        some (disputeStaffAlert 1) ∧
      (processDetection sessionPrefix.1 sessionPrefix.2 ev3).2.2 =
        some (serviceAlert 1) := by
  decide

/-- When rules 1/2 and rule 3 all append on the same call (two alerts
appended), the returned alert is the SECOND one, the rule-3 service
alert, because the source overwrites the `alert` local. -/
theorem rule3_of_rule12_two_appends (ad : AnomalyDetector) (ds : DataStore)
    (t : Nat) (a1 a2 : Alert)
    (h : (rule3 (rule12 ad ds t) t).2.1.alerts = ds.alerts ++ [a1, a2]) :
    (rule3 (rule12 ad ds t) t).2.2 = some a2 ∧
      a2 = serviceAlert t ∧ a1.severity = "urgent" := by
  unfold rule12 at h ⊢
  split_ifs at h ⊢ with hA hB
  all_goals simp only [rule3] at h ⊢
  all_goals split_ifs at h ⊢ with hC
  · rw [List.append_assoc] at h
    have h2 := List.append_cancel_left h
    simp only [List.cons_append, List.nil_append, List.cons.injEq, and_true] at h2
    obtain ⟨hd, hs⟩ := h2
    subst hd
    subst hs
    exact ⟨rfl, rfl, rfl⟩
  · have hl := congrArg List.length h
    simp [List.length_append] at hl
  · rw [List.append_assoc] at h
    have h2 := List.append_cancel_left h
    simp only [List.cons_append, List.nil_append, List.cons.injEq, and_true] at h2
    obtain ⟨hd, hs⟩ := h2
    subst hd
    subst hs
    exact ⟨rfl, rfl, rfl⟩
  · have hl := congrArg List.length h
    simp [List.length_append] at hl
  · have hl := congrArg List.length h
    simp [List.length_append] at hl
  · have hl := congrArg List.length h
    simp [List.length_append] at hl

/-- Claim C2 (amended): when several alert conditions newly qualify on one
call, rules 1 and 2 stay mutually exclusive, but whenever two alerts are
appended in a single check call the function returns the LAST newly-fired
alert — the rule-3 service-dissatisfaction warning — not the rule-1/2
urgent dispute alert. -/
theorem c2_last_fired_alert_returned (ad : AnomalyDetector) (ds : DataStore)
    (t : Nat) (p : PType) (e : String) (c : ℚ) (a1 a2 : Alert)
    (h : (anomalyCheck ad ds t p e c).2.1.alerts = ds.alerts ++ [a1, a2]) :
    (anomalyCheck ad ds t p e c).2.2 = some a2 ∧
      a2 = serviceAlert t ∧ a1.severity = "urgent" := by
  simp only [anomalyCheck] at h ⊢
  exact rule3_of_rule12_two_appends _ ds t a1 a2 h

/-- Witness for c2_last_fired_alert_returned at the concrete trace. -/
theorem c2_last_fired_alert_returned_witness :
    (anomalyCheck sessionPrefix.1 storeBefore3 1 PType.staff "angry"
        (mkRat 9 10)).2.2 = some (serviceAlert 1) ∧
      serviceAlert 1 = serviceAlert 1 ∧ (disputeStaffAlert 1).severity = "urgent" :=
  c2_last_fired_alert_returned sessionPrefix.1 storeBefore3 1 PType.staff "angry"
    (mkRat 9 10) (disputeStaffAlert 1) (serviceAlert 1) (by decide)

/-- Rules 1/2 append at most one alert. -/
theorem rule12_alerts_len (ad : AnomalyDetector) (ds : DataStore) (t : Nat) :
    (rule12 ad ds t).2.1.alerts.length ≤ ds.alerts.length + 1 := by
  unfold rule12
  split_ifs <;> simp

/-- Rule 3 appends at most one alert. -/
theorem rule3_alerts_len (s : AnomalyDetector × DataStore × Option Alert) (t : Nat) :
    (rule3 s t).2.1.alerts.length ≤ s.2.1.alerts.length + 1 := by
  simp only [rule3]
  split_ifs <;> simp

/-- Claim C10: on the reachable state after events guest-angry and
guest-neutral at table 1, the single staff-angry event makes one check
call append TWO distinct alerts — the urgent rule-1 dispute and the rule-3
service warning — while returning only the latter; and no check call ever
appends more than two alerts. -/
theorem c10_two_alerts_per_call :
    ((processDetection sessionPrefix.1 sessionPrefix.2 ev3).2.1.alerts =
        sessionPrefix.2.alerts ++ [disputeStaffAlert 1, serviceAlert 1] ∧
      (disputeStaffAlert 1).severity = "urgent" ∧
      (disputeStaffAlert 1).alert_type = "dispute_staff_customer" ∧
      (serviceAlert 1).severity = "warning" ∧
      (serviceAlert 1).alert_type = "service_dissatisfaction" ∧
      disputeStaffAlert 1 ≠ serviceAlert 1 ∧
      (processDetection sessionPrefix.1 sessionPrefix.2 ev3).2.2 =
        some (serviceAlert 1)) ∧
    ∀ (ad : AnomalyDetector) (ds : DataStore) (t : Nat) (p : PType)
      (e : String) (c : ℚ),
      (anomalyCheck ad ds t p e c).2.1.alerts.length ≤ ds.alerts.length + 2 := by
  constructor
  · decide
  · intro ad ds t p e c
    have h3 := rule3_alerts_len
      (rule12 (if e = "angry" ∧ ANOMALY_CONFIDENCE < c then bumpAnger ad t p else ad) ds t) t
    have h12 := rule12_alerts_len
      (if e = "angry" ∧ ANOMALY_CONFIDENCE < c then bumpAnger ad t p else ad) ds t
    simp only [anomalyCheck]
    omega

/-- Claim C3 counterexample: a fresh tracker resolves an embedding to
guest_1; after resetGuests the SAME embedding resolves again to the id
string guest_1, because the guest counter restarts at zero — so a
post-reset resolution does return a guest person id that was returned
before the reset. -/
theorem c3_pre_reset_id_counterexample :
    (getOrCreate (fun _ _ => (0 : ℚ)) (initTracker : PersonTracker Nat)
        (some 0) false none).2.1 = "guest_1" ∧
      (getOrCreate (fun _ _ => (0 : ℚ))
          (resetGuests
            (getOrCreate (fun _ _ => (0 : ℚ)) (initTracker : PersonTracker Nat)
              (some 0) false none).1)
          (some 0) false none).2.1 = "guest_1" := by
  decide

/-- The guest-matching scan returns nothing on a list holding only staff
persons. -/
theorem findGuestMatch_staff_only {Emb : Type} (dist : Emb → Emb → ℚ) (e : Emb) :
    ∀ ps : List (String × Person Emb),
      (∀ kv ∈ ps, kv.2.ptype = PType.staff) → findGuestMatch dist e ps = none := by
  intro ps
  induction ps with
  | nil => intro _; rfl
  | cons kv rest ih =>
    intro h
    have hk := h kv (List.mem_cons_self _ _)
    have hrest : ∀ x ∈ rest, x.2.ptype = PType.staff :=
      fun x hx => h x (List.mem_cons_of_mem _ hx)
    unfold findGuestMatch
    cases henc : kv.2.encoding with
    | none => exact ih hrest
    | some enc =>
      show (if kv.2.ptype = PType.guest ∧ dist enc e < PERSON_TRACKING_THRESHOLD
          then some kv else findGuestMatch dist e rest) = none
      rw [if_neg]
      · exact ih hrest
      · rintro ⟨hg, _⟩
        rw [hk] at hg
        exact PType.noConfusion hg

/-- Claim C3 (amended): resetGuests discards every guest person (only
staff entries survive) and restarts the guest counter at zero, so a
post-reset resolution can never MATCH a pre-reset guest entry — even an
identical embedding mints a fresh guest instead — but the fresh guest
carries the id string guest_1, which can textually coincide with a
pre-reset guest id. -/
theorem c3_reset_discards_guests {Emb : Type} (dist : Emb → Emb → ℚ)
    (pt : PersonTracker Emb) (e : Emb) :
    (∀ kv ∈ (resetGuests pt).persons, kv.2.ptype = PType.staff) ∧
      (resetGuests pt).guest_counter = 0 ∧
      (getOrCreate dist (resetGuests pt) (some e) false none).2.1 = "guest_1" := by
  have hstaff : ∀ kv ∈ (resetGuests pt).persons, kv.2.ptype = PType.staff := by
    intro kv hkv
    simp only [resetGuests] at hkv
    have hp := (List.mem_filter.mp hkv).2
    simpa using hp
  refine ⟨hstaff, rfl, ?_⟩
  show (match findGuestMatch dist e (resetGuests pt).persons with
      | some kv =>
        ({ resetGuests pt with
            persons := updateEncoding (resetGuests pt).persons kv.1 e },
         kv.1, PType.guest, kv.2.name)
      | none => newGuest (resetGuests pt) (some e)).2.1 = "guest_1"
  rw [findGuestMatch_staff_only dist e _ hstaff]
  show (newGuest (resetGuests pt) (some e)).2.1 = "guest_1"
  simp only [newGuest, resetGuests]
  decide

/-- Witness for c3_reset_discards_guests on the tracker ptW, re-resolving
the pre-reset guest embedding 7 after the reset. -/
theorem c3_reset_discards_guests_witness :
    (resetGuests ptW).guest_counter = 0 ∧
      (getOrCreate (fun _ _ => (0 : ℚ)) (resetGuests ptW)
        (some 7) false none).2.1 = "guest_1" :=
  ⟨(c3_reset_discards_guests (fun _ _ => (0 : ℚ)) ptW 7).2.1,
   (c3_reset_discards_guests (fun _ _ => (0 : ℚ)) ptW 7).2.2⟩

/-- One scene-detector call: the returned table id is the incoming id
plus one exactly when a change is reported, and it matches the updated
state. -/
theorem sceneCheck_table {Sig : Type} (d : Sig → Sig → ℚ) (s : SceneDetector Sig)
    (h : Sig) (n : Nat) :
    (sceneCheck d s h n).2.2 =
        (if (sceneCheck d s h n).2.1 then s.current_table + 1 else s.current_table) ∧
      (sceneCheck d s h n).1.current_table = (sceneCheck d s h n).2.2 := by
  obtain ⟨ph, ct, ts, tf⟩ := s
  cases ph with
  | none => exact ⟨rfl, rfl⟩
  | some p =>
    dsimp only [sceneCheck]
    split_ifs <;> simp_all

/-- The first output of a run from any state reflects that state's
current table id. -/
theorem sceneRun_first {Sig : Type} (d : Sig → Sig → ℚ) (s : SceneDetector Sig)
    (inputs : List (Sig × Nat)) (o : Bool × Nat)
    (h : (sceneRun d s inputs)[0]? = some o) :
    o.2 = if o.1 then s.current_table + 1 else s.current_table := by
  cases inputs with
  | nil => simp [sceneRun] at h
  | cons f rest =>
    simp only [sceneRun, List.getElem?_cons_zero, Option.some.injEq] at h
    subst h
    exact (sceneCheck_table d s f.1 f.2).1

/-- Consecutive outputs of a run differ by exactly one on a change and
are equal otherwise. -/
theorem sceneRun_chain {Sig : Type} (d : Sig → Sig → ℚ) :
    ∀ (inputs : List (Sig × Nat)) (s : SceneDetector Sig) (i : Nat)
      (o o1 : Bool × Nat),
      (sceneRun d s inputs)[i]? = some o →
      (sceneRun d s inputs)[i + 1]? = some o1 →
      o1.2 = if o1.1 then o.2 + 1 else o.2 := by
  intro inputs
  induction inputs with
  | nil =>
    intro s i o o1 h1 _
    simp [sceneRun] at h1
  | cons f rest ih =>
    intro s i o o1 h1 h2
    cases i with
    | zero =>
      simp only [sceneRun, List.getElem?_cons_zero, Option.some.injEq] at h1
      simp only [sceneRun, List.getElem?_cons_succ] at h2
      have hfirst := sceneRun_first d (sceneCheck d s f.1 f.2).1 rest o1 h2
      have hst := (sceneCheck_table d s f.1 f.2).2
      subst h1
      rw [hfirst, hst]
    | succ j =>
      simp only [sceneRun, List.getElem?_cons_succ] at h1 h2
      exact ih _ j o o1 h1 h2

/-- Claim C8: over every run of frames, the first call never reports a
change and returns table id 1, and each later returned table id is the
previous returned id plus one exactly when that call reports a change and
is unchanged otherwise — the id sequence is 1, 2, 3, ... with no gaps,
reuse or decrease. -/
theorem c8_table_id_sequence (Sig : Type) (d : Sig → Sig → ℚ)
    (inputs : List (Sig × Nat)) :
    (∀ o : Bool × Nat,
        (sceneRun d initScene inputs)[0]? = some o → o.1 = false ∧ o.2 = 1) ∧
      ∀ (i : Nat) (o o1 : Bool × Nat),
        (sceneRun d initScene inputs)[i]? = some o →
        (sceneRun d initScene inputs)[i + 1]? = some o1 →
        o1.2 = if o1.1 then o.2 + 1 else o.2 := by
  constructor
  · intro o h
    cases inputs with
    | nil => simp [sceneRun] at h
    | cons f rest =>
      simp only [sceneRun, List.getElem?_cons_zero, Option.some.injEq] at h
      subst h
      exact ⟨rfl, rfl⟩
  · intro i o o1 h1 h2
    exact sceneRun_chain d inputs initScene i o o1 h1 h2

/-- Witness for c8_table_id_sequence on the run 1-change-nochange. -/
theorem c8_table_id_sequence_witness :
    ((false, 1) : Bool × Nat).1 = false ∧ ((false, 1) : Bool × Nat).2 = 1 ∧
      ((true, 2) : Bool × Nat).2 =
        (if ((true, 2) : Bool × Nat).1 then ((false, 1) : Bool × Nat).2 + 1
         else ((false, 1) : Bool × Nat).2) ∧
      ((false, 2) : Bool × Nat).2 =
        (if ((false, 2) : Bool × Nat).1 then ((true, 2) : Bool × Nat).2 + 1
         else ((true, 2) : Bool × Nat).2) :=
  ⟨((c8_table_id_sequence Nat sigDiff [(0, 1), (10, 2), (10, 3)]).1
      (false, 1) (by decide)).1,
   ((c8_table_id_sequence Nat sigDiff [(0, 1), (10, 2), (10, 3)]).1
      (false, 1) (by decide)).2,
   (c8_table_id_sequence Nat sigDiff [(0, 1), (10, 2), (10, 3)]).2
      0 (false, 1) (true, 2) (by decide) (by decide),
   (c8_table_id_sequence Nat sigDiff [(0, 1), (10, 2), (10, 3)]).2
      1 (true, 2) (false, 2) (by decide) (by decide)⟩

/-- Python round(x, 1) never pushes a value that is at most 100 above
100. -/
theorem pyRound1_le_100 (q : ℚ) (hq : q ≤ 100) : pyRound1 q ≤ 100 := by
  have h10 : q * 10 ≤ 1000 := by linarith
  have hfloor : ⌊q * 10⌋ ≤ 1000 := by
    calc ⌊q * 10⌋ ≤ ⌊(1000 : ℚ)⌋ := Int.floor_le_floor h10
      _ = 1000 := by norm_num
  have hfle : ((⌊q * 10⌋ : ℤ) : ℚ) ≤ q * 10 := Int.floor_le _
  have h999 : ¬ (q * 10 - ⌊q * 10⌋ < 1 / 2) → ⌊q * 10⌋ ≤ 999 := by
    intro hr
    have hr2 : (1 : ℚ) / 2 ≤ q * 10 - ⌊q * 10⌋ := le_of_not_lt hr
    by_contra hc
    push_neg at hc
    have hc2 : (1000 : ℤ) ≤ ⌊q * 10⌋ := by omega
    have hcq : (1000 : ℚ) ≤ ((⌊q * 10⌋ : ℤ) : ℚ) := by exact_mod_cast hc2
    linarith
  simp only [pyRound1]
  rw [div_le_iff₀ (by norm_num : (0 : ℚ) < 10)]
  split_ifs with h1 h2 h3
  · have hc : ((⌊q * 10⌋ : ℤ) : ℚ) ≤ 1000 := by exact_mod_cast hfloor
    linarith
  · have h9 := h999 h1
    have hc : ((⌊q * 10⌋ + 1 : ℤ) : ℚ) ≤ 1000 := by
      exact_mod_cast (by omega : ⌊q * 10⌋ + 1 ≤ (1000 : ℤ))
    linarith
  · have hc : ((⌊q * 10⌋ : ℤ) : ℚ) ≤ 1000 := by exact_mod_cast hfloor
    linarith
  · have h9 := h999 h1
    have hc : ((⌊q * 10⌋ + 1 : ℤ) : ℚ) ≤ 1000 := by
      exact_mod_cast (by omega : ⌊q * 10⌋ + 1 ≤ (1000 : ℤ))
    linarith

/-- Claim C9: for every staff emotion history and per-table guest data —
hence for every number of resolved-negative-trend +5 bonuses — the
performance score is clamped and never exceeds 100. -/
theorem c9_score_clamped (name : String) (emotions : List StaffEmo)
    (tableData : Nat → TableData) (h : emotions ≠ []) :
    (staffPerfRecord name emotions tableData).score ≤ 100 := by
  have hraw : staffScoreRaw emotions tableData ≤ 100 := by
    unfold staffScoreRaw
    exact min_le_left _ _
  exact pyRound1_le_100 _ hraw

/-- Witness for c9_score_clamped: a history over 21 tables whose every
table is resolved, giving 21 bonuses on a base score of 100. -/
theorem c9_score_clamped_witness :
    emoW ≠ [] ∧ 20 < (staffPerfRecord "A" emoW tdW).resolved_negative_trends ∧
      (staffPerfRecord "A" emoW tdW).score ≤ 100 :=
  ⟨by decide, by decide, c9_score_clamped "A" emoW tdW (by decide)⟩

end RestoInsight
